import Mathlib

/-!
Verification development for the abstar germline-assignment engine
(`abstar/utils/vdj.py`). The Python code is shallowly embedded: Python
`str` becomes `String` with Python slice semantics (`pySlice`), Python
integers become `Int` (or `Nat` where the source value is manifestly a
length / 0-based offset produced by `len`), and code that can raise is
embedded in `Option`/`Except` (a `none` / `.error` value stands for a
raised exception).  External collaborators that the repository does not
ship in `src/` (the BLASTn/SSW aligner primitives, the
`abstar.utils.sequence` / `junction` / `productivity` / `isotype` /
`mutations` modules) are either modelled from the spec (so marked) or
taken as universally-quantified function parameters.
-/

namespace Abstar

/-- Python slice-index resolution: a negative index counts from the end of the
string, and both directions clamp to `[0, n]`. -/
def pyIdx (n : Nat) (i : Int) : Nat :=
  if i < 0 then ((n : Int) + i).toNat else min i.toNat n

/-- Python string slice `s[a:b]` (step 1), with Python's negative-index and
clamping behaviour; never fails. -/
def pySlice (s : String) (a b : Int) : String :=
  String.mk ((s.toList.drop (pyIdx s.length a)).take (pyIdx s.length b - pyIdx s.length a))

/-- Python string repetition `c * n`: a negative count yields the empty string. -/
def pyRepl (c : Char) (n : Int) : String :=
  String.mk (List.replicate n.toNat c)

/-- Python `s.replace('-', '')`, used throughout `vdj.py` to strip alignment gaps. -/
def stripGaps (s : String) : String :=
  String.mk (s.toList.filter (fun c => c ≠ '-'))

/-- Worker for `pySplitWs`: split on whitespace, discarding empty fields. -/
def splitWsAux : List Char → List Char → List String
  | [], acc => if acc = [] then [] else [String.mk acc.reverse]
  | c :: cs, acc =>
    if c.isWhitespace then
      (if acc = [] then splitWsAux cs [] else String.mk acc.reverse :: splitWsAux cs [])
    else splitWsAux cs (c :: acc)

/-- Python `s.split()` with no argument: split on runs of whitespace and drop
empty fields (so `''.split() = []`). -/
def pySplitWs (s : String) : List String := splitWsAux s.toList []

/-- Worker for `pyStartsWith` on character lists. -/
def listStartsWith : List Char → List Char → Bool
  | _, [] => true
  | [], _ :: _ => false
  | c :: cs, p :: ps => c = p && listStartsWith cs ps

/-- Python `s.startswith(p)`. -/
def pyStartsWith (s p : String) : Bool := listStartsWith s.toList p.toList

/-- Complement of a nucleotide base; characters outside the standard alphabet
are left unchanged (Biopython's `Seq.reverse_complement` is an external
primitive; only the standard bases matter to the code under verification). -/
def compBase (c : Char) : Char :=
  if c = 'A' then 'T' else if c = 'T' then 'A'
  else if c = 'C' then 'G' else if c = 'G' then 'C'
  else if c = 'a' then 't' else if c = 't' then 'a'
  else if c = 'c' then 'g' else if c = 'g' then 'c' else c

/-- Reverse complement of a nucleotide string
(`str(Seq(s, generic_dna).reverse_complement())` in `vdj.py`). -/
def revComp (s : String) : String :=
  String.mk ((s.toList.map compBase).reverse)

/-- Alignment midline as built by `BlastResult._get_realignment_midline` and
`DiversityResult._get_alignment_midline`: positionwise `'|'`/`' '` over the
common length of the two gapped alignment strings. -/
def mkMidline (q g : String) : String :=
  String.mk (List.zipWith (fun a b => if a = b then '|' else ' ') q.toList g.toList)

/-- Raw result of the external SSW pairwise aligner (`ssw_wrap.Aligner.align`,
an out-of-scope primitive per the spec): an edit-run (CIGAR) list, 0-based
inclusive begin/end on each side, and a score.  `ref_begin`/`ref_end` are on
the sequence given to the `Aligner` constructor, `query_begin`/`query_end`
on the sequence given to `align` (the germline), as in `ssw_wrap`. -/
structure AlignRes where
  cigar : List (Nat × Char)
  ref_begin : Nat
  ref_end : Nat
  query_begin : Nat
  query_end : Nat
  score : Nat
deriving Repr, DecidableEq

/-- Scoring parameters handed to the SSW aligner. -/
structure SSWParams where
  match_score : Nat
  mismatch : Nat
  gap_open : Nat
  gap_extend : Nat
  report_cigar : Bool
deriving Repr, DecidableEq

/-- `Alignment` (vdj.py lines 236-265): wraps a raw SSW result; converts the
primitive's end-inclusive coordinates to half-open (`end = raw_end + 1`) and
slices the aligned substrings out of the full sequences. -/
structure Alignment where
  target_id : String
  query_seq : String
  target_seq : String
  alignment : AlignRes
  cigar : List (Nat × Char)
  query_begin : Nat
  query_end : Nat
  target_begin : Nat
  target_end : Nat
  aligned_query : String
  aligned_target : String
deriving Repr, DecidableEq

/-- `Alignment.__init__`: note the deliberate swap — SSW's `ref_*` coordinates
are the query's, its `query_*` coordinates are the target's. -/
def mkAlignment (target_id query_seq target_seq : String) (al : AlignRes) : Alignment :=
  let query_begin := al.ref_begin
  let query_end := al.ref_end + 1
  let target_begin := al.query_begin
  let target_end := al.query_end + 1
  { target_id := target_id
    query_seq := query_seq
    target_seq := target_seq
    alignment := al
    cigar := al.cigar
    query_begin := query_begin
    query_end := query_end
    target_begin := target_begin
    target_end := target_end
    aligned_query := pySlice query_seq query_begin query_end
    aligned_target := pySlice target_seq target_begin target_end }

/-- One HSP of a parsed BLASTn XML record (Biopython `NCBIXML`, external).
E-values and bitscores are floating-point in the XML; they are carried here
as `Int` since no code under verification computes with them. -/
structure HSP where
  score : Int
  expect : Int
  bits : Int
  query : String
  sbjct : String
  hsp_match : String
  query_start : Int
  sbjct_start : Int
deriving Repr, DecidableEq

/-- One candidate of a parsed BLASTn XML record (Biopython `Alignment`
object): a title line, the subject-sequence length, and the HSP list. -/
structure BlastCandidate where
  title : String
  length : Nat
  hsps : List HSP
deriving Repr, DecidableEq

/-- `BlastResult._chain` (vdj.py lines 582-594): chain from the germline-name
prefix, with the extra undocumented `VH` case; total, `none` otherwise. -/
def blastChain (g : String) : Option String :=
  if pyStartsWith g "IGH" then some "heavy"
  else if pyStartsWith g "IGK" then some "kappa"
  else if pyStartsWith g "IGL" then some "lambda"
  else if pyStartsWith g "VH" then some "heavy"
  else none

/-- Map a fallible function over a list, failing if any element fails
(the embedding of Python list comprehensions whose body can raise). -/
def mapOpt (f : α → Option β) : List α → Option (List β)
  | [] => some []
  | a :: as =>
    match f a, mapOpt f as with
    | some b, some bs => some (b :: bs)
    | _, _ => none

/-- Python `title.split()[0]`: the first whitespace-delimited word of a
candidate's title; raises (= `none`) when the title has no word. -/
def firstWord (title : String) : Option String := (pySplitWs title).head?

/-- `BlastResult` (vdj.py lines 269-298): all top-candidate derived fields,
computed eagerly at construction. -/
structure BlastResult where
  id : String
  alignments : List BlastCandidate
  input_sequence : String
  species : String
  top_germline : String
  all_germlines : List String
  top_score : Int
  all_scores : List Int
  top_evalue : Int
  all_evalues : List Int
  top_bitscore : Int
  all_bitscores : List Int
  strand : String
  query_alignment : String
  germline_alignment : String
  alignment_midline : String
  alignment_length : Nat
  query_start : Int
  query_end : Int
  germline_start : Int
  germline_end : Int
  gene_type : Option String
  chain : Option String
  germline_seq : Option String
deriving Repr, DecidableEq

/-- `BlastResult.__init__`: indexing `alignments[0]`, `title.split()[0]`,
`hsps[0]` and `top_germline[3]` can all raise, so construction is fallible
(`none` = a raised exception the caller must catch).  Coordinates convert
the XML's 1-based starts to 0-based (`- 1`) and derive the ends by adding
the candidate's `length` field. -/
def mkBlastResult (seq_id : String) (alignments : List BlastCandidate)
    (input_sequence species : String) : Option BlastResult := do
  let top ← alignments.head?
  let top_germline ← firstWord top.title
  let all_germlines ← mapOpt (fun a => firstWord a.title) alignments
  let tophsp ← top.hsps.head?
  let all_scores ← mapOpt (fun a => a.hsps.head?.map (fun h => h.score)) alignments
  let all_evalues ← mapOpt (fun a => a.hsps.head?.map (fun h => h.expect)) alignments
  let all_bitscores ← mapOpt (fun a => a.hsps.head?.map (fun h => h.bits)) alignments
  let alignment_length := top.length
  let query_start : Int := tophsp.query_start - 1
  let germline_start : Int := tophsp.sbjct_start - 1
  let c3 ← top_germline.toList[3]?
  let gene_type : Option String :=
    if c3 = 'V' then some "variable" else if c3 = 'J' then some "joining" else none
  pure
    { id := seq_id
      alignments := alignments
      input_sequence := input_sequence
      species := species
      top_germline := top_germline
      all_germlines := all_germlines
      top_score := tophsp.score
      all_scores := all_scores
      top_evalue := tophsp.expect
      all_evalues := all_evalues
      top_bitscore := tophsp.bits
      all_bitscores := all_bitscores
      strand := "plus"
      query_alignment := tophsp.query
      germline_alignment := tophsp.sbjct
      alignment_midline := tophsp.hsp_match
      alignment_length := alignment_length
      query_start := query_start
      query_end := query_start + alignment_length
      germline_start := germline_start
      germline_end := germline_start + alignment_length
      gene_type := gene_type
      chain := blastChain top_germline
      germline_seq := none }

/-- `BlastResult._alignment_chunk_from_cigar_pair` (vdj.py lines 415-443):
extend the partial gapped query/germline strings by one CIGAR run.  The
offsets `q`/`g` are the gap-stripped lengths accumulated so far; `S` runs are
skipped, `M` consumes both sides, `D` consumes the query and gaps the
germline, `I` gaps the query and consumes the germline, and any other run
type falls through unchanged. -/
def cigarChunk (al : Alignment) (pair : Nat × Char) (acc : String × String) : String × String :=
  let q : Int := (stripGaps acc.1).length
  let g : Int := (stripGaps acc.2).length
  let clength := pair.1
  let ctype := pair.2.toUpper
  if ctype = 'S' then acc
  else if ctype = 'M' then
    (acc.1 ++ pySlice al.aligned_query q (q + clength),
     acc.2 ++ pySlice al.aligned_target g (g + clength))
  else if ctype = 'D' then
    (acc.1 ++ pySlice al.aligned_query q (q + clength),
     acc.2 ++ pyRepl '-' clength)
  else if ctype = 'I' then
    (acc.1 ++ pyRepl '-' clength,
     acc.2 ++ pySlice al.aligned_target g (g + clength))
  else acc

/-- `BlastResult._cigar_to_alignment` (vdj.py lines 394-413): fold the CIGAR
runs in order into a gapped query/germline alignment pair. -/
def cigarToAlignment (al : Alignment) : String × String :=
  al.cigar.foldl (fun acc pair => cigarChunk al pair acc) ("", "")

/-- `BlastResult._process_realignment` (vdj.py lines 378-391): install the
re-alignment's gapped strings and midline; update the start coordinates only
for the `variable` gene type; always update the end coordinates. -/
def processRealignment (br : BlastResult) (al : Alignment) : BlastResult :=
  let pair := cigarToAlignment al
  { br with
    query_alignment := pair.1
    germline_alignment := pair.2
    alignment_midline := mkMidline pair.1 pair.2
    query_start := if br.gene_type = some "variable" then (al.query_begin : Int) else br.query_start
    germline_start := if br.gene_type = some "variable" then (al.target_begin : Int) else br.germline_start
    query_end := (al.query_end : Int)
    germline_end := (al.target_end : Int) }

/-- SSW scoring parameters used by `realign_variable`
(match=3, mismatch=2, gap_open=22, gap_extend=1, report_cigar=True). -/
def vRealignParams : SSWParams :=
  { match_score := 3, mismatch := 2, gap_open := 22, gap_extend := 1, report_cigar := true }

/-- `BlastResult.realign_variable` (vdj.py lines 331-360).  The germline
database lookup (`_get_germline_sequence_for_realignment`, file I/O) and the
SSW aligner are external, passed as `getGermlineSeq` and `alignFn`
(`alignFn params ref query` aligns `query` against the `Aligner`-constructor
sequence `ref`).  A failed lookup makes the subsequent `align` call raise in
Python, so the whole call is fallible.  Both the forward orientation and the
reverse complement of the stored input sequence are aligned against the
germline; the strictly-higher-scoring forward alignment is kept, otherwise
the reverse complement wins, the stored input sequence is replaced by it and
the strand set to `'minus'`. -/
def realign_variable (getGermlineSeq : String → Option String)
    (alignFn : SSWParams → String → String → AlignRes)
    (br : BlastResult) (germline_gene : String) : Option BlastResult :=
  match getGermlineSeq germline_gene with
  | none => none
  | some gs =>
    let fwd := alignFn vRealignParams br.input_sequence gs
    let rc := revComp br.input_sequence
    let bwd := alignFn vRealignParams rc gs
    if fwd.score > bwd.score then
      some (processRealignment { br with germline_seq := some gs }
        (mkAlignment germline_gene br.input_sequence gs fwd))
    else
      some (processRealignment
        { br with germline_seq := some gs, strand := "minus", input_sequence := rc }
        (mkAlignment germline_gene rc gs bwd))

/-- `DiversityResult` (vdj.py lines 598-636): same attribute surface as
`BlastResult` but built from a ranked list of `Alignment` objects; e-values
and bitscores are empty. -/
structure DiversityResult where
  id : String
  input_sequence : String
  alignments : List Alignment
  top_germline : Option String
  all_germlines : List String
  top_score : Nat
  all_scores : List Nat
  top_evalue : Option Int
  all_evalues : List Int
  top_bitscore : Option Int
  all_bitscores : List Int
  query_alignment : String
  germline_alignment : String
  alignment_midline : String
  alignment_length : Nat
  query_start : Nat
  query_end : Nat
  germline_start : Nat
  germline_end : Nat
  sequence : String
  reading_frame : Nat
  gene_type : String
  chain : String
  nt_mutations : List (Nat × Char × Char)
deriving Repr, DecidableEq

/-- `DiversityResult.__init__`: every accessor indexes `alignments[0]`, so an
empty list raises (= `none`).  `top_germline` is `None` unless the top score
exceeds 9.  The nucleotide-mutation cataloguer (`abstar.utils.mutations`,
not in `src/`) is an out-of-scope downstream collaborator, passed as the
total function `ntMutFn` over the two gapped alignment strings. -/
def mkDiversityResult (ntMutFn : String → String → List (Nat × Char × Char))
    (seq_id seq : String) (alignments : List Alignment) : Option DiversityResult := do
  let top ← alignments.head?
  let top_germline : Option String :=
    if top.alignment.score > 9 then some top.target_id else none
  let query_alignment := top.aligned_query
  let germline_alignment := top.aligned_target
  let query_start := top.query_begin
  let query_end := top.query_end
  let germline_start := top.target_begin
  pure
    { id := seq_id
      input_sequence := seq
      alignments := alignments
      top_germline := top_germline
      all_germlines := alignments.map (fun a => a.target_id)
      top_score := top.alignment.score
      all_scores := alignments.map (fun a => a.alignment.score)
      top_evalue := none
      all_evalues := []
      top_bitscore := none
      all_bitscores := []
      query_alignment := query_alignment
      germline_alignment := germline_alignment
      alignment_midline := mkMidline query_alignment germline_alignment
      alignment_length := germline_alignment.length
      query_start := query_start
      query_end := query_end
      germline_start := germline_start
      germline_end := top.target_end
      sequence := pySlice query_alignment query_start query_end
      reading_frame := germline_start % 3 + 1
      gene_type := "diversity"
      chain := "heavy"
      nt_mutations := ntMutFn query_alignment germline_alignment }

/-- Modelled from the spec: the `Sequence` wrapper (`abstar.utils.sequence`)
is not in `src/`; per spec §3/§4.1 it carries an id, the raw nucleotide
string, the input/original form and a strand marker. -/
structure Sequence where
  id : String
  sequence : String
  input : String
  strand : String
deriving Repr, DecidableEq

/-- Modelled from the spec (§4.1): `region(start=0, end=None)` returns
`raw[start:end]` with `end` defaulting to the full length; never raises. -/
def Sequence.region (s : Sequence) (start : Int) : String :=
  pySlice s.sequence start s.sequence.length

/-- The post-realignment boundary guard of `process_sequence_file`
(vdj.py lines 791-796): a surviving V assignment is discarded (set to `None`)
when at most 10 nucleotides of the query remain past the V-alignment end
`len(v.query_alignment) + v.query_start`. -/
def applyVGuard (p : Sequence × Option BlastResult) : Sequence × Option BlastResult :=
  match p.2 with
  | none => (p.1, none)
  | some v =>
    if (p.1.region ((v.query_alignment.length : Int) + v.query_start)).length ≤ 10 then
      (p.1, none)
    else (p.1, some v)

/-- `v_blast_results = [v[1] for v in vs if v[1]]` (vdj.py line 797). -/
def survivingResults (vs : List (Sequence × Option BlastResult)) : List BlastResult :=
  vs.filterMap (fun p => p.2)

/-- `seqs = [v[0] for v in vs if v[1]]` (vdj.py line 798): the sequences that
feed the J-gene search input. -/
def survivingSeqs (vs : List (Sequence × Option BlastResult)) : List Sequence :=
  (vs.filter (fun p => p.2.isSome)).map (fun p => p.1)

/-- `failed_seqs = [v[0] for v in vs if not v[1]]` (vdj.py line 799). -/
def failedSeqs (vs : List (Sequence × Option BlastResult)) : List Sequence :=
  (vs.filter (fun p => p.2.isNone)).map (fun p => p.1)

/-- The two `args` attributes `VDJ.__init__` reads: the UAID length
(`0` = falsy = no UAID) and the isotype flag. -/
structure VDJArgs where
  uaid : Nat
  isotype : Bool
deriving Repr, DecidableEq

/-- `VDJ._get_chain` (vdj.py lines 126-138): like `BlastResult._chain` but
without the `VH` case; falls through to `None` (its `except` branch is
unreachable in the embedding since `top_germline` is a genuine string). -/
def vdjChain (g : String) : Option String :=
  if pyStartsWith g "IGH" then some "heavy"
  else if pyStartsWith g "IGK" then some "kappa"
  else if pyStartsWith g "IGL" then some "lambda"
  else none

/-- The attributes `VDJ._get_attributes` derives before junction extraction
(vdj.py lines 83-112), together with the identity fields of the owning VDJ
object that downstream collaborators read. -/
structure VDJCore where
  id : String
  raw_input : String
  raw_query : String
  uaid : String
  strand : String
  v : BlastResult
  j : BlastResult
  d : Option DiversityResult
  species : String
  chain : Option String
  query_reading_frame : Int
  v_start : Int
  v_end : Nat
  j_start : Int
  j_end : Int
  d_start : Option Int
  d_end : Option Int
  n1_start : Option Int
  n1_end : Option Int
  n2_start : Option Int
  n2_end : Option Int
  n_start : Option Int
  n_end : Option Int
  vdj_region_string : String
  vdj_nt : String
  vdj_aa : String
deriving Repr, DecidableEq

/-- The full attribute set of a successfully derived VDJ object. -/
structure VDJAttrs where
  core : VDJCore
  junction : String
  productive : String
  isotype : String
deriving Repr, DecidableEq

/-- `self.uaid = seq.input[:args.uaid] if args.uaid else ''` (vdj.py line 61). -/
def mkUaid (seq : Sequence) (args : VDJArgs) : String :=
  if args.uaid ≠ 0 then pySlice seq.input 0 (args.uaid : Int) else ""

/-- The pure part of `VDJ._get_attributes` (vdj.py lines 83-113 and the
boundary helpers at lines 168-214): chain, reading frame, V/D/J/N boundaries,
region-map string, spliced VDJ nucleotide sequence and its translation.
Translation (`Seq(...).translate()`, Biopython) is an external primitive
passed as the total function `translate`. -/
def mkVDJCore (translate : String → String) (seq : Sequence) (args : VDJArgs)
    (vr jr : BlastResult) (d : Option DiversityResult) : VDJCore :=
  let chain := vdjChain vr.top_germline
  let query_reading_frame : Int := vr.germline_start % 3
  let v_start : Int := vr.query_start
  let v_end : Nat := vr.query_alignment.length
  let j_start : Int := (v_end : Int) + jr.query_start
  let j_end : Int := j_start + (jr.query_alignment.length : Int)
  let vdj_nt : String :=
    stripGaps (vr.query_alignment ++
      pySlice jr.input_sequence 0 (jr.query_start + (jr.query_alignment.length : Int)))
  let offset : Int := (query_reading_frame * 2) % 3
  let trimTo : Int := (vdj_nt.length : Int) - (((pySlice vdj_nt offset vdj_nt.length).length : Int) % 3)
  let vdj_aa := translate (pySlice vdj_nt offset trimTo)
  let base : VDJCore :=
    { id := seq.id
      raw_input := seq.sequence
      raw_query := seq.input
      uaid := mkUaid seq args
      strand := seq.strand
      v := vr
      j := jr
      d := d
      species := vr.species
      chain := chain
      query_reading_frame := query_reading_frame
      v_start := v_start
      v_end := v_end
      j_start := j_start
      j_end := j_end
      d_start := none
      d_end := none
      n1_start := none
      n1_end := none
      n2_start := none
      n2_end := none
      n_start := none
      n_end := none
      vdj_region_string := ""
      vdj_nt := vdj_nt
      vdj_aa := vdj_aa }
  match d with
  | some dr =>
    let d_start : Int := (v_end : Int) + (dr.query_start : Int)
    let d_end : Int := d_start + (dr.query_alignment.length : Int)
    { base with
      d_start := some d_start
      d_end := some d_end
      n1_start := some ((v_end : Int) + 1)
      n1_end := some d_start
      n2_start := some (d_end + 1)
      n2_end := some j_start
      vdj_region_string :=
        pyRepl 'V' (v_end : Int) ++ pyRepl 'N' (d_start - (v_end : Int)) ++
        pyRepl 'D' (d_end - d_start) ++ pyRepl 'N' (j_start - d_end) ++
        pyRepl 'J' (j_end - j_start) }
  | none =>
    { base with
      n_start := some ((v_end : Int) + 1)
      n_end := some j_start
      vdj_region_string :=
        pyRepl 'V' (v_end : Int) ++ pyRepl 'N' (j_start - (v_end : Int)) ++
        pyRepl 'J' (j_end - j_start) }

/-- The fallible remainder of `VDJ._get_attributes` (vdj.py lines 114-122):
junction extraction, productivity check and optional isotype lookup.  Those
collaborators (`abstar.utils.junction` / `productivity` / `isotype`) are not
in `src/`; they are passed as exception-returning parameters (`.error` = a
raised exception; a falsy `None`/`''` junction return is modelled as `""`,
both being falsy for the `if not self.junction` test). -/
def deriveAttrs (getJunction checkProd getIsotype : VDJCore → Except Unit String)
    (translate : String → String) (seq : Sequence) (args : VDJArgs)
    (vr jr : BlastResult) (d : Option DiversityResult) : Except Unit VDJAttrs :=
  Except.bind (getJunction (mkVDJCore translate seq args vr jr d)) (fun junction =>
  Except.bind (checkProd (mkVDJCore translate seq args vr jr d)) (fun productive =>
  Except.bind
    (if args.isotype then getIsotype (mkVDJCore translate seq args vr jr d)
     else Except.ok "")
    (fun isotype =>
  Except.ok
    { core := mkVDJCore translate seq args vr jr d, junction := junction,
      productive := productive, isotype := isotype })))

/-- `VDJ` (vdj.py lines 46-80): identity fields, the three germline results,
the `rearrangement` flag, and the derived attributes when both V and J were
assigned and derivation did not raise. -/
structure VDJ where
  id : String
  raw_input : String
  raw_query : String
  uaid : String
  strand : String
  v : Option BlastResult
  j : Option BlastResult
  d : Option DiversityResult
  rearrangement : Bool
  attrs : Option VDJAttrs
deriving Repr, DecidableEq

/-- `VDJ.__init__` (vdj.py lines 56-80): with both V and J present the flag
starts `True` and attribute derivation runs inside a `try`; any exception
collapses the flag to `False`, and an empty junction does the same at the end
of `_get_attributes`.  With a missing V or J the flag is `False` and no
attributes are derived.  Construction itself never raises. -/
def mkVDJ (getJunction checkProd getIsotype : VDJCore → Except Unit String)
    (translate : String → String) (seq : Sequence) (args : VDJArgs)
    (v j : Option BlastResult) (d : Option DiversityResult) : VDJ :=
  let base : VDJ :=
    { id := seq.id
      raw_input := seq.sequence
      raw_query := seq.input
      uaid := mkUaid seq args
      strand := seq.strand
      v := v
      j := j
      d := d
      rearrangement := false
      attrs := none }
  match v, j with
  | some vr, some jr =>
    match deriveAttrs getJunction checkProd getIsotype translate seq args vr jr d with
    | .ok attrs => { base with rearrangement := attrs.junction != "", attrs := some attrs }
    | .error _ => base
  | _, _ => base

/-! ## Concrete example values (used by witnesses and counterexamples) -/

/-- A high-scoring (12) D-gene alignment of the junction `GATTACA`. -/
def dHighAl : Alignment :=
  mkAlignment "IGHD3-10*01" "GATTACA" "GATTAC"
    { cigar := [(6, 'M')], ref_begin := 0, ref_end := 5,
      query_begin := 0, query_end := 5, score := 12 }

/-- A low-scoring (5) D-gene alignment of the junction `GATTACA`. -/
def dLowAl : Alignment :=
  mkAlignment "IGHD3-10*01" "GATTACA" "GATTAC"
    { cigar := [(6, 'M')], ref_begin := 0, ref_end := 5,
      query_begin := 0, query_end := 5, score := 5 }

/-- The `DiversityResult` built from the high-scoring alignment. -/
def dHighRes : DiversityResult :=
  (mkDiversityResult (fun _ _ => []) "s1" "GATTACA" [dHighAl]).get (by decide)

/-- The `DiversityResult` built from the low-scoring alignment. -/
def dLowRes : DiversityResult :=
  (mkDiversityResult (fun _ _ => []) "s1" "GATTACA" [dLowAl]).get (by decide)

/-- An HSP whose aligned query string `TTTT` is unrelated to the input
sequence `AAAA` it will be paired with. -/
def xHsp : HSP :=
  { score := 50, expect := 0, bits := 0, query := "TTTT", sbjct := "GGGG",
    hsp_match := "    ", query_start := 1, sbjct_start := 1 }

/-- A well-formed BLAST candidate carrying `xHsp`. -/
def xCand : BlastCandidate :=
  { title := "IGHV1-2*02 Homo sapiens", length := 4, hsps := [xHsp] }

/-- A plain consistent HSP for witnesses. -/
def hspEx : HSP :=
  { score := 100, expect := 0, bits := 120, query := "GATTACA", sbjct := "GATTACA",
    hsp_match := "|||||||", query_start := 1, sbjct_start := 1 }

/-- A candidate whose title's first word `IGH` has only 3 characters, so
`top_germline[3]` raises during construction. -/
def shortTitleCand : BlastCandidate :=
  { title := "IGH partial name", length := 7, hsps := [hspEx] }

/-- A fully well-formed candidate. -/
def okCand : BlastCandidate :=
  { title := "IGHV1-2*02 Homo sapiens", length := 7, hsps := [hspEx] }

/-- The `BlastResult` built from the well-formed candidate. -/
def okBR : BlastResult :=
  (mkBlastResult "s1" [okCand] "GATTACA" "human").get (by decide)

/-- A concrete input sequence record. -/
def seqEx : Sequence :=
  { id := "seq1", sequence := "ACGTACGTACGTACGTAC", input := "ACGTACGTACGTACGTAC",
    strand := "plus" }

/-- Concrete args: no UAID, no isotype lookup. -/
def argsEx : VDJArgs := { uaid := 0, isotype := false }

/-- A concrete V-gene `BlastResult`. -/
def vBR : BlastResult :=
  { id := "seq1", alignments := [], input_sequence := "ACGTACGTACGTACGTAC",
    species := "human", top_germline := "IGHV1-2*02",
    all_germlines := ["IGHV1-2*02"], top_score := 100, all_scores := [100],
    top_evalue := 0, all_evalues := [0], top_bitscore := 120, all_bitscores := [120],
    strand := "plus", query_alignment := "ACGTACGT",
    germline_alignment := "ACGTACGT", alignment_midline := "||||||||",
    alignment_length := 8, query_start := 0, query_end := 8,
    germline_start := 0, germline_end := 8, gene_type := some "variable",
    chain := some "heavy", germline_seq := none }

/-- A concrete J-gene `BlastResult`. -/
def jBR : BlastResult :=
  { id := "seq1", alignments := [], input_sequence := "ACGTACGTACGTACG",
    species := "human", top_germline := "IGHJ6*02",
    all_germlines := ["IGHJ6*02"], top_score := 40, all_scores := [40],
    top_evalue := 0, all_evalues := [0], top_bitscore := 50, all_bitscores := [50],
    strand := "plus", query_alignment := "ACGTAC",
    germline_alignment := "ACGTAC", alignment_midline := "||||||",
    alignment_length := 6, query_start := 7, query_end := 13,
    germline_start := 0, germline_end := 6, gene_type := some "joining",
    chain := some "heavy", germline_seq := none }

/-- A junction extractor that always returns a non-empty junction. -/
def okJunction : VDJCore → Except Unit String := fun _ => .ok "TGTGCGAGAGG"

/-- A junction extractor that always raises. -/
def errJunction : VDJCore → Except Unit String := fun _ => .error ()

/-- A productivity checker that always answers `yes`. -/
def okProd : VDJCore → Except Unit String := fun _ => .ok "yes"

/-- An isotype lookup that always succeeds. -/
def okIso : VDJCore → Except Unit String := fun _ => .ok ""

/-- A trivial total stand-in for the external translation primitive. -/
def idTranslate : String → String := fun s => s

/-- A concrete germline reference sequence for re-alignment examples. -/
def c4germ : String := "ACGTACGTACGT"

/-- A germline database lookup that always finds `c4germ`. -/
def c4gs : String → Option String := fun _ => some c4germ

/-- An SSW stand-in whose score is always 5, far below `vBR.top_score`. -/
def cAlignFn : SSWParams → String → String → AlignRes := fun _ _ _ =>
  { cigar := [(2, 'M')], ref_begin := 0, ref_end := 1,
    query_begin := 0, query_end := 1, score := 5 }

/-- An SSW stand-in that scores the forward orientation higher. -/
def alignFn0 : SSWParams → String → String → AlignRes := fun _ r _ =>
  if r = vBR.input_sequence then
    { cigar := [(4, 'M')], ref_begin := 0, ref_end := 3,
      query_begin := 0, query_end := 3, score := 30 }
  else
    { cigar := [(2, 'M')], ref_begin := 0, ref_end := 1,
      query_begin := 0, query_end := 1, score := 10 }

/-- The result of re-aligning `vBR` with the forward-favouring SSW stand-in. -/
def c4res : BlastResult :=
  (realign_variable c4gs alignFn0 vBR "IGHV1-2*02").get (by decide)

/-- Derived attributes of a concrete heavy-chain VDJ with a D gene. -/
def vdjAttrsD : VDJAttrs :=
  (mkVDJ okJunction okProd okIso idTranslate seqEx argsEx (some vBR) (some jBR)
    (some dHighRes)).attrs.get (by decide)

/-- Derived attributes of the same V/J pair without a D gene. -/
def vdjAttrsN : VDJAttrs :=
  (mkVDJ okJunction okProd okIso idTranslate seqEx argsEx (some vBR) (some jBR)
    none).attrs.get (by decide)

/-! ## Helper lemmas -/

theorem mapOpt_isSome {α β : Type} (f : α → Option β) (l : List α)
    (h : ∀ a ∈ l, (f a).isSome = true) : (mapOpt f l).isSome = true := by
  induction l with
  | nil => rfl
  | cons a as ih =>
    obtain ⟨b, hb⟩ := Option.isSome_iff_exists.mp (h a (by simp))
    obtain ⟨bs, hbs⟩ := Option.isSome_iff_exists.mp (ih (fun x hx => h x (by simp [hx])))
    simp [mapOpt, hb, hbs]

theorem stripGaps_append (a b : String) : stripGaps (a ++ b) = stripGaps a ++ stripGaps b := by
  obtain ⟨la⟩ := a
  obtain ⟨lb⟩ := b
  show String.mk ((la ++ lb).filter _) = String.mk (la.filter _ ++ lb.filter _)
  rw [List.filter_append]

theorem string_append_eq_empty {a b : String} (h : a ++ b = "") : a = "" ∧ b = "" := by
  obtain ⟨la⟩ := a
  obtain ⟨lb⟩ := b
  have : la ++ lb = [] := congrArg String.data h
  obtain ⟨h1, h2⟩ := List.append_eq_nil.mp this
  exact ⟨congrArg String.mk h1, congrArg String.mk h2⟩

theorem deriveAttrs_ok_core (gJ cP gI : VDJCore → Except Unit String)
    (tr : String → String) (seq : Sequence) (args : VDJArgs)
    (vr jr : BlastResult) (d : Option DiversityResult) (a : VDJAttrs)
    (h : deriveAttrs gJ cP gI tr seq args vr jr d = .ok a) :
    a.core = mkVDJCore tr seq args vr jr d := by
  unfold deriveAttrs at h
  cases hj : gJ (mkVDJCore tr seq args vr jr d) with
  | error e => rw [hj] at h; simp [Except.bind] at h
  | ok jv =>
    rw [hj] at h
    cases hp : cP (mkVDJCore tr seq args vr jr d) with
    | error e => rw [hp] at h; simp [Except.bind] at h
    | ok pv =>
      rw [hp] at h
      cases hi : (if args.isotype then gI (mkVDJCore tr seq args vr jr d)
          else Except.ok "" : Except Unit String) with
      | error e => rw [hi] at h; simp [Except.bind] at h
      | ok iv =>
        rw [hi] at h
        simp [Except.bind] at h
        rw [← h]

theorem mkVDJ_attrs_ok (gJ cP gI : VDJCore → Except Unit String)
    (tr : String → String) (seq : Sequence) (args : VDJArgs)
    (vr jr : BlastResult) (d : Option DiversityResult) (a : VDJAttrs)
    (h : (mkVDJ gJ cP gI tr seq args (some vr) (some jr) d).attrs = some a) :
    deriveAttrs gJ cP gI tr seq args vr jr d = .ok a := by
  unfold mkVDJ at h
  cases hda : deriveAttrs gJ cP gI tr seq args vr jr d with
  | ok attrs => simp only [hda, Option.some.injEq] at h; subst h; rfl
  | error e => simp [hda] at h

theorem mkVDJCore_vdj_nt (tr : String → String) (seq : Sequence) (args : VDJArgs)
    (vr jr : BlastResult) (d : Option DiversityResult) :
    (mkVDJCore tr seq args vr jr d).vdj_nt =
      stripGaps (vr.query_alignment ++
        pySlice jr.input_sequence 0 (jr.query_start + (jr.query_alignment.length : Int))) := by
  cases d <;> rfl

theorem pyRepl_length (c : Char) (n : Int) : (pyRepl c n).length = n.toNat := by
  show (List.replicate n.toNat c).length = n.toNat
  exact List.length_replicate n.toNat c

theorem pyStartsWith_igk_not_igh (g : String) (h : pyStartsWith g "IGK" = true) :
    pyStartsWith g "IGH" = false := by
  obtain ⟨l⟩ := g
  have hk : ("IGK".toList) = ['I', 'G', 'K'] := rfl
  have hh : ("IGH".toList) = ['I', 'G', 'H'] := rfl
  have hl : (String.mk l).toList = l := rfl
  simp only [pyStartsWith, hk, hh, hl] at h ⊢
  rcases l with _ | ⟨a, _ | ⟨b, _ | ⟨c, rest⟩⟩⟩ <;> simp_all [listStartsWith]

theorem pyStartsWith_igl_not_igh (g : String) (h : pyStartsWith g "IGL" = true) :
    pyStartsWith g "IGH" = false := by
  obtain ⟨l⟩ := g
  have hk : ("IGL".toList) = ['I', 'G', 'L'] := rfl
  have hh : ("IGH".toList) = ['I', 'G', 'H'] := rfl
  have hl : (String.mk l).toList = l := rfl
  simp only [pyStartsWith, hk, hh, hl] at h ⊢
  rcases l with _ | ⟨a, _ | ⟨b, _ | ⟨c, rest⟩⟩⟩ <;> simp_all [listStartsWith]

theorem pyStartsWith_igl_not_igk (g : String) (h : pyStartsWith g "IGL" = true) :
    pyStartsWith g "IGK" = false := by
  obtain ⟨l⟩ := g
  have hk : ("IGL".toList) = ['I', 'G', 'L'] := rfl
  have hh : ("IGK".toList) = ['I', 'G', 'K'] := rfl
  have hl : (String.mk l).toList = l := rfl
  simp only [pyStartsWith, hk, hh, hl] at h ⊢
  rcases l with _ | ⟨a, _ | ⟨b, _ | ⟨c, rest⟩⟩⟩ <;> simp_all [listStartsWith]

theorem pyStartsWith_vh_not_ig (g : String) (h : pyStartsWith g "VH" = true) :
    pyStartsWith g "IGH" = false ∧ pyStartsWith g "IGK" = false ∧
      pyStartsWith g "IGL" = false := by
  obtain ⟨l⟩ := g
  have hv : ("VH".toList) = ['V', 'H'] := rfl
  have h1 : ("IGH".toList) = ['I', 'G', 'H'] := rfl
  have h2 : ("IGK".toList) = ['I', 'G', 'K'] := rfl
  have h3 : ("IGL".toList) = ['I', 'G', 'L'] := rfl
  have hl : (String.mk l).toList = l := rfl
  simp only [pyStartsWith, hv, h1, h2, h3, hl] at h ⊢
  rcases l with _ | ⟨a, _ | ⟨b, rest⟩⟩ <;> simp_all [listStartsWith]

/-! ## Claim theorems -/

/-- Claim C8: `_process_realignment` updates `query_start` and
`germline_start` only when the result's gene type is `'variable'`; for any
other gene type (in particular `'joining'`) the start coordinates keep their
pre-realignment values, while `query_end` and `germline_end` are always set
from the re-alignment's coordinates. -/
theorem process_realignment_start_update_only_variable
    (br : BlastResult) (al : Alignment) :
    (processRealignment br al).query_end = (al.query_end : Int) ∧
    (processRealignment br al).germline_end = (al.target_end : Int) ∧
    (processRealignment br al).query_start =
      (if br.gene_type = some "variable" then (al.query_begin : Int) else br.query_start) ∧
    (processRealignment br al).germline_start =
      (if br.gene_type = some "variable" then (al.target_begin : Int) else br.germline_start) :=
  ⟨rfl, rfl, rfl, rfl⟩

/-- Claim C10: `BlastResult._chain` is total and returns `'heavy'` for gene
names starting with `'IGH'`, `'kappa'` for `'IGK'`, `'lambda'` for `'IGL'`,
`'heavy'` also for the undocumented prefix `'VH'`, and `None` otherwise. -/
theorem blast_chain_total_prefix_cases (g : String) :
    (pyStartsWith g "IGH" = true → blastChain g = some "heavy") ∧
    (pyStartsWith g "IGK" = true → blastChain g = some "kappa") ∧
    (pyStartsWith g "IGL" = true → blastChain g = some "lambda") ∧
    (pyStartsWith g "VH" = true → blastChain g = some "heavy") ∧
    (pyStartsWith g "IGH" = false → pyStartsWith g "IGK" = false →
      pyStartsWith g "IGL" = false → pyStartsWith g "VH" = false →
      blastChain g = none) := by
  refine ⟨fun h => ?_, fun h => ?_, fun h => ?_, fun h => ?_, fun h1 h2 h3 h4 => ?_⟩
  · simp [blastChain, h]
  · simp [blastChain, h, pyStartsWith_igk_not_igh g h]
  · simp [blastChain, h, pyStartsWith_igl_not_igh g h, pyStartsWith_igl_not_igk g h]
  · obtain ⟨e1, e2, e3⟩ := pyStartsWith_vh_not_ig g h
    simp [blastChain, h, e1, e2, e3]
  · simp [blastChain, h1, h2, h3, h4]

/-- Witness for C10 at concrete gene names. -/
theorem blast_chain_total_prefix_cases_witness :
    blastChain "IGHV1-2*02" = some "heavy" ∧
    blastChain "IGKV3-20*01" = some "kappa" ∧
    blastChain "IGLV2-14*01" = some "lambda" ∧
    blastChain "VH3-23" = some "heavy" ∧
    blastChain "TRBV9*01" = none :=
  ⟨(blast_chain_total_prefix_cases "IGHV1-2*02").1 (by decide),
   (blast_chain_total_prefix_cases "IGKV3-20*01").2.1 (by decide),
   (blast_chain_total_prefix_cases "IGLV2-14*01").2.2.1 (by decide),
   (blast_chain_total_prefix_cases "VH3-23").2.2.2.1 (by decide),
   (blast_chain_total_prefix_cases "TRBV9*01").2.2.2.2 (by decide) (by decide)
     (by decide) (by decide)⟩

/-- Claim C6: for every `DiversityResult` built from a non-empty alignment
list, `top_germline` is `None` whenever `top_score ≤ 9`, and is the
top-ranked alignment's target gene name whenever `top_score > 9`. -/
theorem diversity_top_germline_score_floor
    (ntMutFn : String → String → List (Nat × Char × Char)) (sid s : String)
    (als : List Alignment) (dr : DiversityResult) (top : Alignment)
    (h : mkDiversityResult ntMutFn sid s als = some dr)
    (htop : als.head? = some top) :
    (dr.top_score ≤ 9 → dr.top_germline = none) ∧
    (9 < dr.top_score → dr.top_germline = some top.target_id) := by
  unfold mkDiversityResult at h
  rw [htop] at h
  simp only [bind, Option.bind_eq_some, pure, Option.some.injEq] at h
  obtain ⟨t, ht, hbr⟩ := h
  cases ht
  subst hbr
  constructor
  · intro hle
    have : ¬ top.alignment.score > 9 := by
      simpa using hle
    simp [this]
  · intro hgt
    have : top.alignment.score > 9 := by
      simpa using hgt
    simp [this]

/-- Witness for C6: a 12-scoring top alignment names the gene, a 5-scoring
one yields `None`. -/
theorem diversity_top_germline_score_floor_witness :
    ((mkDiversityResult (fun _ _ => []) "s1" "GATTACA" [dHighAl]).map
      (fun dr => dr.top_germline)) = some (some "IGHD3-10*01") ∧
    ((mkDiversityResult (fun _ _ => []) "s1" "GATTACA" [dLowAl]).map
      (fun dr => dr.top_germline)) = some none := by
  constructor
  · have h := diversity_top_germline_score_floor (fun _ _ => []) "s1" "GATTACA"
      [dHighAl] dHighRes dHighAl rfl rfl
    have h2 := h.2 (by decide)
    show some dHighRes.top_germline = some (some "IGHD3-10*01")
    rw [h2]
    rfl
  · have h := diversity_top_germline_score_floor (fun _ _ => []) "s1" "GATTACA"
      [dLowAl] dLowRes dLowAl rfl rfl
    have h1 := h.1 (by decide)
    show some dLowRes.top_germline = some none
    rw [h1]

/-- Claim C1: for every VDJ object, `rearrangement = true` implies the V
result, the J result, the junction string and the VDJ nucleotide sequence
are all non-empty/non-null, and the flag is false whenever V or J is
missing.  The hypothesis `hqa` states that the V aligned-query string
contains at least one non-gap character, which is true of any genuine
alignment. -/
theorem rearrangement_flag_invariant (gJ cP gI : VDJCore → Except Unit String)
    (tr : String → String) (seq : Sequence) (args : VDJArgs)
    (vr jr : BlastResult) (d : Option DiversityResult)
    (hqa : stripGaps vr.query_alignment ≠ "") :
    (∀ (j' : Option BlastResult) (d' : Option DiversityResult),
      (mkVDJ gJ cP gI tr seq args none j' d').rearrangement = false) ∧
    (∀ (v' : Option BlastResult) (d' : Option DiversityResult),
      (mkVDJ gJ cP gI tr seq args v' none d').rearrangement = false) ∧
    ((mkVDJ gJ cP gI tr seq args (some vr) (some jr) d).rearrangement = true →
      (mkVDJ gJ cP gI tr seq args (some vr) (some jr) d).v = some vr ∧
      (mkVDJ gJ cP gI tr seq args (some vr) (some jr) d).j = some jr ∧
      (mkVDJ gJ cP gI tr seq args (some vr) (some jr) d).attrs ≠ none ∧
      (∀ a, (mkVDJ gJ cP gI tr seq args (some vr) (some jr) d).attrs = some a →
        a.junction ≠ "" ∧ a.core.vdj_nt ≠ "")) := by
  refine ⟨?_, ?_, ?_⟩
  · intro j' d'; cases j' <;> rfl
  · intro v' d'; cases v' <;> rfl
  · intro h
    cases hda : deriveAttrs gJ cP gI tr seq args vr jr d with
    | error e => simp [mkVDJ, hda] at h
    | ok attrs =>
      have hv : (mkVDJ gJ cP gI tr seq args (some vr) (some jr) d).v = some vr := by
        simp [mkVDJ, hda]
      have hj2 : (mkVDJ gJ cP gI tr seq args (some vr) (some jr) d).j = some jr := by
        simp [mkVDJ, hda]
      have hat : (mkVDJ gJ cP gI tr seq args (some vr) (some jr) d).attrs = some attrs := by
        simp [mkVDJ, hda]
      have hjn : attrs.junction ≠ "" := by
        unfold mkVDJ at h
        simp only [hda] at h
        simpa using h
      refine ⟨hv, hj2, by simp [hat], ?_⟩
      intro a ha
      rw [hat] at ha
      obtain rfl : attrs = a := by simpa using ha
      refine ⟨hjn, ?_⟩
      have hcore := deriveAttrs_ok_core gJ cP gI tr seq args vr jr d attrs hda
      rw [hcore, mkVDJCore_vdj_nt, stripGaps_append]
      intro hemp
      exact hqa (string_append_eq_empty hemp).1

/-- Witness for C1: with both V and J present and a junction extracted the
flag is true and attributes exist; dropping either germline result forces the
flag to false. -/
theorem rearrangement_flag_invariant_witness :
    (mkVDJ okJunction okProd okIso idTranslate seqEx argsEx none (some jBR) none).rearrangement
      = false ∧
    (mkVDJ okJunction okProd okIso idTranslate seqEx argsEx (some vBR) none none).rearrangement
      = false ∧
    (mkVDJ okJunction okProd okIso idTranslate seqEx argsEx (some vBR) (some jBR) none).attrs
      ≠ none :=
  have h := rearrangement_flag_invariant okJunction okProd okIso idTranslate seqEx argsEx
    vBR jBR none (by decide)
  ⟨h.1 (some jBR) none, h.2.1 (some vBR) none, (h.2.2 (by decide)).2.2.1⟩

/-- Claim C2: any exception during attribute derivation is caught inside
construction: it sets `rearrangement = false` instead of propagating, and
constructing a VDJ for every member of a batch always yields one object per
input — a malformed sequence never aborts its siblings. -/
theorem attribute_error_collapses_rearrangement (gJ cP gI : VDJCore → Except Unit String)
    (tr : String → String) (seq : Sequence) (args : VDJArgs)
    (vr jr : BlastResult) (d : Option DiversityResult)
    (h : deriveAttrs gJ cP gI tr seq args vr jr d = .error ()) :
    (mkVDJ gJ cP gI tr seq args (some vr) (some jr) d).rearrangement = false ∧
    (mkVDJ gJ cP gI tr seq args (some vr) (some jr) d).attrs = none ∧
    (∀ (batch : List (Sequence × Option BlastResult × Option BlastResult ×
        Option DiversityResult)),
      (batch.map (fun p => mkVDJ gJ cP gI tr p.1 args p.2.1 p.2.2.1 p.2.2.2)).length
        = batch.length) := by
  refine ⟨?_, ?_, fun batch => by simp⟩
  · simp [mkVDJ, h]
  · simp [mkVDJ, h]

/-- Witness for C2: a junction extractor that raises yields a constructed
(non-propagating) VDJ with a false flag and no attributes. -/
theorem attribute_error_collapses_rearrangement_witness :
    (mkVDJ errJunction okProd okIso idTranslate seqEx argsEx (some vBR) (some jBR)
      none).rearrangement = false ∧
    (mkVDJ errJunction okProd okIso idTranslate seqEx argsEx (some vBR) (some jBR)
      none).attrs = none :=
  have h := attribute_error_collapses_rearrangement errJunction okProd okIso idTranslate
    seqEx argsEx vBR jBR none rfl
  ⟨h.1, h.2.1⟩

/-- Counterexample for C3: a concretely constructed `BlastResult` whose
aligned query string (taken verbatim from the search output) differs from
the input sequence sliced at the derived coordinates. -/
theorem blast_query_alignment_not_input_slice :
    ((mkBlastResult "s" [xCand] "AAAA" "human").map
      (fun br => br.query_alignment == pySlice br.input_sequence br.query_start br.query_end))
      = some false := by decide

/-- Amended C3: the slicing round-trip holds for the pairwise `Alignment`
wrapper (`aligned_query = query[query_begin:query_end]`, likewise for the
target), while for `BlastResult` only the end-coordinate equations
`query_end = query_start + alignment_length` and
`germline_end = germline_start + alignment_length` hold; its alignment
strings are the verbatim search-output strings, not slices. -/
theorem alignment_slice_roundtrip_and_blast_ends :
    (∀ (tid q t : String) (al : AlignRes),
      (mkAlignment tid q t al).aligned_query =
        pySlice q ((mkAlignment tid q t al).query_begin : Int)
          ((mkAlignment tid q t al).query_end : Int) ∧
      (mkAlignment tid q t al).aligned_target =
        pySlice t ((mkAlignment tid q t al).target_begin : Int)
          ((mkAlignment tid q t al).target_end : Int)) ∧
    (∀ (sid : String) (cands : List BlastCandidate) (inp sp : String) (br : BlastResult),
      mkBlastResult sid cands inp sp = some br →
      br.query_end = br.query_start + (br.alignment_length : Int) ∧
      br.germline_end = br.germline_start + (br.alignment_length : Int)) := by
  constructor
  · intro tid q t al; exact ⟨rfl, rfl⟩
  · intro sid cands inp sp br h
    unfold mkBlastResult at h
    simp only [bind, Option.bind_eq_some, pure, Option.some.injEq] at h
    obtain ⟨top, h1, w, h2, gs2, h3, th, h4, ss, h5, es, h6, bs, h7, c3, h8, hbr⟩ := h
    subst hbr
    exact ⟨rfl, rfl⟩

/-- Witness for amended C3 at a concrete `BlastResult`. -/
theorem alignment_slice_roundtrip_and_blast_ends_witness :
    okBR.query_end = okBR.query_start + (okBR.alignment_length : Int) ∧
    okBR.germline_end = okBR.germline_start + (okBR.alignment_length : Int) :=
  alignment_slice_roundtrip_and_blast_ends.2 "s1" [okCand] "GATTACA" "human" okBR rfl

/-- Counterexample for C9: a non-empty candidate list for which construction
still fails — the top candidate's first title word `IGH` is too short for
the `top_germline[3]` gene-type lookup. -/
theorem blast_result_nonempty_construction_failure :
    mkBlastResult "s1" [shortTitleCand] "GATTACA" "human" = none ∧
    ([shortTitleCand] : List BlastCandidate) ≠ [] := ⟨by decide, by decide⟩

/-- Amended C9: construction from an empty candidate list always fails
(caller must catch), and from a non-empty list it succeeds provided every
candidate is well-formed: each has at least one HSP and a first title word,
and the top candidate's first word has at least 4 characters (needed by the
gene-type lookup `top_germline[3]`). -/
theorem blast_result_empty_fails_wellformed_succeeds :
    (∀ (sid inp sp : String), mkBlastResult sid [] inp sp = none) ∧
    (∀ (sid : String) (c : BlastCandidate) (rest : List BlastCandidate)
        (inp sp w : String),
      (∀ a ∈ c :: rest, a.hsps ≠ [] ∧ firstWord a.title ≠ none) →
      firstWord c.title = some w → 4 ≤ w.length →
      (mkBlastResult sid (c :: rest) inp sp).isSome = true) := by
  constructor
  · intro sid inp sp; rfl
  · intro sid c rest inp sp w hall hw hlen
    obtain ⟨hhsp, _⟩ := hall c (by simp)
    obtain ⟨tophsp, hth⟩ : ∃ hh, c.hsps.head? = some hh := by
      cases chs : c.hsps with
      | nil => exact absurd chs hhsp
      | cons x xs => exact ⟨x, rfl⟩
    obtain ⟨c3, hc3⟩ : ∃ ch, w.data[3]? = some ch := by
      have h3 : 3 < w.data.length := by
        have hwl : w.data.length = w.length := rfl
        omega
      exact ⟨w.data[3], List.getElem?_eq_getElem h3⟩
    have hg : (mapOpt (fun a => firstWord a.title) (c :: rest)).isSome = true := by
      apply mapOpt_isSome
      intro a ha
      cases hfa : firstWord a.title with
      | none => exact absurd hfa (hall a ha).2
      | some _ => rfl
    have hsc : (mapOpt (fun a => a.hsps.head?.map (fun hh => hh.score))
        (c :: rest)).isSome = true := by
      apply mapOpt_isSome
      intro a ha
      cases chs : a.hsps with
      | nil => exact absurd chs (hall a ha).1
      | cons x xs => rfl
    have hse : (mapOpt (fun a => a.hsps.head?.map (fun hh => hh.expect))
        (c :: rest)).isSome = true := by
      apply mapOpt_isSome
      intro a ha
      cases chs : a.hsps with
      | nil => exact absurd chs (hall a ha).1
      | cons x xs => rfl
    have hsb : (mapOpt (fun a => a.hsps.head?.map (fun hh => hh.bits))
        (c :: rest)).isSome = true := by
      apply mapOpt_isSome
      intro a ha
      cases chs : a.hsps with
      | nil => exact absurd chs (hall a ha).1
      | cons x xs => rfl
    obtain ⟨gs2, hg⟩ := Option.isSome_iff_exists.mp hg
    obtain ⟨ss, hss⟩ := Option.isSome_iff_exists.mp hsc
    obtain ⟨es, hes⟩ := Option.isSome_iff_exists.mp hse
    obtain ⟨bs, hbs⟩ := Option.isSome_iff_exists.mp hsb
    unfold mkBlastResult
    rw [show (c :: rest).head? = some c from rfl]
    simp [hw, hg, hth, hss, hes, hbs, hc3]

/-- Witness for amended C9: the empty list fails; a well-formed singleton
succeeds. -/
theorem blast_result_empty_fails_wellformed_succeeds_witness :
    mkBlastResult "s1" [] "GATTACA" "human" = none ∧
    (mkBlastResult "s1" [okCand] "GATTACA" "human").isSome = true :=
  ⟨blast_result_empty_fails_wellformed_succeeds.1 "s1" "GATTACA" "human",
   blast_result_empty_fails_wellformed_succeeds.2 "s1" okCand [] "GATTACA" "human"
     "IGHV1-2*02" (by decide) (by decide) (by decide)⟩

/-- Counterexample for C4: re-alignment proceeds (and replaces the stored
alignment strings) even though the best score achievable in either
orientation (5) is far below the replaced BLAST candidate's score (100),
which stays stored unchanged in `top_score`. -/
theorem realign_variable_score_below_blast_score :
    ((realign_variable c4gs cAlignFn vBR "IGHV1-2*02").map (fun br' => br'.top_score))
      = some vBR.top_score ∧
    ((max (cAlignFn vRealignParams vBR.input_sequence c4germ).score
          (cAlignFn vRealignParams (revComp vBR.input_sequence) c4germ).score : Nat) : Int)
      < vBR.top_score ∧
    ((realign_variable c4gs cAlignFn vBR "IGHV1-2*02").map
      (fun br' => br'.query_alignment == vBR.query_alignment)) = some false :=
  ⟨by decide, by decide, by decide⟩

/-- Amended C4: `realign_variable` keeps the higher-scoring of the forward
and reverse-complement orientations (ties go to the reverse complement): the
installed end coordinate comes from the winning alignment, on a
reverse-complement win the stored input sequence is replaced by its reverse
complement and the strand set to `'minus'`, and the BLAST candidate's
`top_score` is never compared against or updated. -/
theorem realign_variable_keeps_best_orientation
    (getGermlineSeq : String → Option String)
    (alignFn : SSWParams → String → String → AlignRes)
    (br : BlastResult) (g gs : String) (fwd bwd : AlignRes)
    (hg : getGermlineSeq g = some gs)
    (hf : alignFn vRealignParams br.input_sequence gs = fwd)
    (hb : alignFn vRealignParams (revComp br.input_sequence) gs = bwd) :
    (realign_variable getGermlineSeq alignFn br g).isSome = true ∧
    fwd.score ≤ max fwd.score bwd.score ∧
    bwd.score ≤ max fwd.score bwd.score ∧
    (∀ br', realign_variable getGermlineSeq alignFn br g = some br' →
      br'.top_score = br.top_score ∧
      (bwd.score < fwd.score →
        br'.strand = br.strand ∧ br'.input_sequence = br.input_sequence ∧
        br'.query_end = ((fwd.ref_end + 1 : Nat) : Int)) ∧
      (fwd.score ≤ bwd.score →
        br'.strand = "minus" ∧ br'.input_sequence = revComp br.input_sequence ∧
        br'.query_end = ((bwd.ref_end + 1 : Nat) : Int))) := by
  refine ⟨?_, le_max_left _ _, le_max_right _ _, ?_⟩
  · unfold realign_variable
    rw [hg]
    dsimp only
    rw [hf, hb]
    split <;> rfl
  · intro br' hbr
    unfold realign_variable at hbr
    rw [hg] at hbr
    dsimp only at hbr
    rw [hf, hb] at hbr
    by_cases hsc : fwd.score > bwd.score
    · rw [if_pos hsc] at hbr
      obtain rfl : _ = br' := Option.some.inj hbr
      exact ⟨rfl, fun _ => ⟨rfl, rfl, rfl⟩, fun hle => absurd hsc (by omega)⟩
    · rw [if_neg hsc] at hbr
      obtain rfl : _ = br' := Option.some.inj hbr
      exact ⟨rfl, fun hlt => absurd hlt (by omega), fun _ => ⟨rfl, rfl, rfl⟩⟩

/-- Witness for amended C4 at the forward-favouring concrete aligner. -/
theorem realign_variable_keeps_best_orientation_witness :
    c4res.top_score = vBR.top_score ∧ c4res.strand = vBR.strand ∧
    (realign_variable c4gs alignFn0 vBR "IGHV1-2*02").isSome = true := by
  have h := realign_variable_keeps_best_orientation c4gs alignFn0 vBR "IGHV1-2*02" c4germ
    (alignFn0 vRealignParams vBR.input_sequence c4germ)
    (alignFn0 vRealignParams (revComp vBR.input_sequence) c4germ) rfl rfl rfl
  have hsome : realign_variable c4gs alignFn0 vBR "IGHV1-2*02" = some c4res :=
    (Option.some_get (by decide)).symm
  have h4 := h.2.2.2 c4res hsome
  exact ⟨h4.1, (h4.2.1 (by decide)).1, h.1⟩

/-- Claim C5: after V re-alignment, a sequence with at most 10 query
nucleotides remaining past the V-alignment end has its V assignment
discarded; it lands among the failed sequences and contributes neither a
result nor a sequence to the J-search input lists. -/
theorem v_guard_discards_short_remainder (seq : Sequence) (v : BlastResult)
    (h : (seq.region ((v.query_alignment.length : Int) + v.query_start)).length ≤ 10)
    (pre post : List (Sequence × Option BlastResult)) :
    applyVGuard (seq, some v) = (seq, none) ∧
    seq ∈ failedSeqs ((pre ++ (seq, some v) :: post).map applyVGuard) ∧
    survivingResults ((pre ++ (seq, some v) :: post).map applyVGuard) =
      survivingResults (pre.map applyVGuard) ++ survivingResults (post.map applyVGuard) ∧
    survivingSeqs ((pre ++ (seq, some v) :: post).map applyVGuard) =
      survivingSeqs (pre.map applyVGuard) ++ survivingSeqs (post.map applyVGuard) := by
  have hg : applyVGuard (seq, some v) = (seq, none) := by
    simp [applyVGuard, h]
  refine ⟨hg, ?_, ?_, ?_⟩
  · have hmem : (seq, (none : Option BlastResult)) ∈
        (pre ++ (seq, some v) :: post).map applyVGuard := by
      rw [← hg]
      exact List.mem_map_of_mem applyVGuard (by simp)
    exact List.mem_map.mpr ⟨(seq, none), List.mem_filter.mpr ⟨hmem, by simp⟩, rfl⟩
  · simp [survivingResults, List.map_append, List.filterMap_append, hg]
  · simp [survivingSeqs, List.map_append, List.filter_append, hg]

/-- Witness for C5: `seqEx` keeps exactly 10 nucleotides past `vBR`'s
V-alignment end, so the guard discards the assignment. -/
theorem v_guard_discards_short_remainder_witness :
    applyVGuard (seqEx, some vBR) = (seqEx, none) ∧
    seqEx ∈ failedSeqs ([((seqEx : Sequence), some vBR)].map applyVGuard) ∧
    survivingResults ([((seqEx : Sequence), some vBR)].map applyVGuard) = [] := by
  have h := v_guard_discards_short_remainder seqEx vBR (by decide) [] []
  exact ⟨h.1, h.2.1, h.2.2.1⟩

/-- Claim C7: for every derived attribute set, the region-map string is the
concatenation of a `V` run of length `v_end`, `N`/`D`/`N` runs of lengths
`d_start - v_end`, `d_end - d_start`, `j_start - d_end` when a D gene is
present (a single `N` run of length `j_start - v_end` otherwise), and a `J`
run of length `j_end - j_start`; under the boundary ordering the pipeline
guarantees (the D alignment lies inside the junction, which ends at the J
start, and the J start is at a non-negative offset) its length is exactly
`j_end`. -/
theorem region_string_length_eq_j_end (gJ cP gI : VDJCore → Except Unit String)
    (tr : String → String) (seq : Sequence) (args : VDJArgs) (vr jr : BlastResult) :
    (∀ (dr : DiversityResult) (a : VDJAttrs),
      (mkVDJ gJ cP gI tr seq args (some vr) (some jr) (some dr)).attrs = some a →
      ((dr.query_start : Int) + (dr.query_alignment.length : Int) ≤ jr.query_start) →
      a.core.d_start = some ((a.core.v_end : Int) + (dr.query_start : Int)) ∧
      a.core.d_end = some ((a.core.v_end : Int) + (dr.query_start : Int) +
        (dr.query_alignment.length : Int)) ∧
      (∀ ds de, a.core.d_start = some ds → a.core.d_end = some de →
        a.core.vdj_region_string =
          pyRepl 'V' (a.core.v_end : Int) ++ pyRepl 'N' (ds - (a.core.v_end : Int)) ++
          pyRepl 'D' (de - ds) ++ pyRepl 'N' (a.core.j_start - de) ++
          pyRepl 'J' (a.core.j_end - a.core.j_start)) ∧
      ((a.core.vdj_region_string.length : Int) = a.core.j_end)) ∧
    (∀ (a : VDJAttrs),
      (mkVDJ gJ cP gI tr seq args (some vr) (some jr) none).attrs = some a →
      (0 ≤ jr.query_start) →
      a.core.vdj_region_string =
        pyRepl 'V' (a.core.v_end : Int) ++
        pyRepl 'N' (a.core.j_start - (a.core.v_end : Int)) ++
        pyRepl 'J' (a.core.j_end - a.core.j_start) ∧
      ((a.core.vdj_region_string.length : Int) = a.core.j_end)) := by
  constructor
  · intro dr a ha hle
    have hda := mkVDJ_attrs_ok gJ cP gI tr seq args vr jr (some dr) a ha
    have hcore := deriveAttrs_ok_core gJ cP gI tr seq args vr jr (some dr) a hda
    rw [hcore]
    refine ⟨rfl, rfl, ?_, ?_⟩
    · intro ds de hds hde
      have hds2 : ds = (vr.query_alignment.length : Int) + (dr.query_start : Int) :=
        (Option.some.inj hds).symm
      have hde2 : de = (vr.query_alignment.length : Int) + (dr.query_start : Int) +
          (dr.query_alignment.length : Int) :=
        (Option.some.inj hde).symm
      subst hds2
      subst hde2
      rfl
    · have hreg : (mkVDJCore tr seq args vr jr (some dr)).vdj_region_string =
          pyRepl 'V' ((vr.query_alignment.length : Nat) : Int) ++
          pyRepl 'N' (((vr.query_alignment.length : Int) + (dr.query_start : Int)) -
            (vr.query_alignment.length : Int)) ++
          pyRepl 'D' ((((vr.query_alignment.length : Int) + (dr.query_start : Int)) +
            (dr.query_alignment.length : Int)) -
            ((vr.query_alignment.length : Int) + (dr.query_start : Int))) ++
          pyRepl 'N' ((((vr.query_alignment.length : Int) + jr.query_start) -
            (((vr.query_alignment.length : Int) + (dr.query_start : Int)) +
              (dr.query_alignment.length : Int)))) ++
          pyRepl 'J' ((((vr.query_alignment.length : Int) + jr.query_start) +
            (jr.query_alignment.length : Int)) -
            ((vr.query_alignment.length : Int) + jr.query_start)) := rfl
      have hj : (mkVDJCore tr seq args vr jr (some dr)).j_end =
          ((vr.query_alignment.length : Int) + jr.query_start) +
            (jr.query_alignment.length : Int) := rfl
      rw [hreg, hj]
      simp only [String.length_append, pyRepl_length]
      push_cast
      omega
  · intro a ha hle
    have hda := mkVDJ_attrs_ok gJ cP gI tr seq args vr jr none a ha
    have hcore := deriveAttrs_ok_core gJ cP gI tr seq args vr jr none a hda
    rw [hcore]
    refine ⟨rfl, ?_⟩
    have hreg : (mkVDJCore tr seq args vr jr none).vdj_region_string =
        pyRepl 'V' ((vr.query_alignment.length : Nat) : Int) ++
        pyRepl 'N' (((vr.query_alignment.length : Int) + jr.query_start) -
          (vr.query_alignment.length : Int)) ++
        pyRepl 'J' ((((vr.query_alignment.length : Int) + jr.query_start) +
          (jr.query_alignment.length : Int)) -
          ((vr.query_alignment.length : Int) + jr.query_start)) := rfl
    have hj : (mkVDJCore tr seq args vr jr none).j_end =
        ((vr.query_alignment.length : Int) + jr.query_start) +
          (jr.query_alignment.length : Int) := rfl
    rw [hreg, hj]
    simp only [String.length_append, pyRepl_length]
    push_cast
    omega

/-- Witness for C7: concrete heavy-chain attributes with a D gene, and the
same V/J pair without one. -/
theorem region_string_length_eq_j_end_witness :
    ((vdjAttrsD.core.vdj_region_string.length : Int) = vdjAttrsD.core.j_end) ∧
    ((vdjAttrsN.core.vdj_region_string.length : Int) = vdjAttrsN.core.j_end) := by
  have h := region_string_length_eq_j_end okJunction okProd okIso idTranslate seqEx argsEx
    vBR jBR
  have h1 := h.1 dHighRes vdjAttrsD (Option.some_get (by decide)).symm (by decide)
  have h2 := h.2 vdjAttrsN (Option.some_get (by decide)).symm (by decide)
  exact ⟨h1.2.2.2, h2.2⟩

end Abstar
